import Mathlib

/-!
Verification development for `Plots.py`: a script that simulates a
survey-style respondent table with `numpy` under a fixed seed and renders
three seaborn regression plots from it.

Modelling choices (shallow embedding):
* The seeded numpy generator (`np.random.seed(42)`) is a fixed infinite
  stream of uniform draws in `[0,1)` together with a cursor; each sampling
  primitive consumes one stream position per generated value, in call order.
* Machine floats are embedded as exact rationals `ℚ`.
* `np.random.normal(loc, scale, ...)` is modelled as
  `loc + scale * gauss u`, where `gauss : ℚ → ℚ` is an abstract
  uniform-to-standard-normal transform kept as a parameter; the theorems
  hold for every such transform.
* A pandas `DataFrame` built from a dict is an ordered association list of
  named columns (insertion order preserved).
* A seaborn plot call is a function that reads the named `x`, `y` (and
  `hue`) columns of the table and returns their data; purely presentational
  arguments (palette, alpha, titles, axis labels) are not modelled.
-/

namespace Plots

/-- A seeded pseudo-random source: the infinite stream of uniform draws in
`[0,1)` determined by the seed, plus a cursor marking the next position to
consume. -/
structure RNG where
  stream : Nat → ℚ
  pos : Nat

/-- A stream is a valid uniform source when every value lies in `[0,1)`. -/
def validStream (s : Nat → ℚ) : Prop :=
  ∀ j, 0 ≤ s j ∧ s j < 1

/-- Advance the cursor past `k` consumed draws. -/
def RNG.skip (r : RNG) (k : Nat) : RNG :=
  ⟨r.stream, r.pos + k⟩

/-- Value of a single `np.random.randint(lo, hi)` draw from a uniform `u`:
inverse transform onto the integers of `[lo, hi)`. -/
def randintVal (lo hi : ℤ) (u : ℚ) : ℤ :=
  lo + ⌊u * ((hi : ℚ) - (lo : ℚ))⌋

/-- Value of a single `np.random.binomial(1, p)` (Bernoulli) draw from a
uniform `u`. -/
def bernoulliVal (p u : ℚ) : ℤ :=
  if u < p then 1 else 0

/-- Value of a single `np.random.normal(loc, scale)` draw from a uniform
`u`, via the abstract uniform-to-standard-normal transform `gauss`. -/
def normalVal (gauss : ℚ → ℚ) (loc scale u : ℚ) : ℚ :=
  loc + scale * gauss u

/-- `np.random.randint(lo, hi, size=n)`: an array of `n` draws, consuming
`n` consecutive stream positions. -/
def randint (lo hi : ℤ) (n : Nat) (r : RNG) : (Fin n → ℤ) × RNG :=
  (fun i => randintVal lo hi (r.stream (r.pos + i.val)), r.skip n)

/-- `np.random.binomial(1, p, size=n)`: an array of `n` Bernoulli draws. -/
def binomial (p : ℚ) (n : Nat) (r : RNG) : (Fin n → ℤ) × RNG :=
  (fun i => bernoulliVal p (r.stream (r.pos + i.val)), r.skip n)

/-- `np.random.normal(loc, scale, size=n)`: an array of `n` normal draws. -/
def normal (gauss : ℚ → ℚ) (loc scale : ℚ) (n : Nat) (r : RNG) : (Fin n → ℚ) × RNG :=
  (fun i => normalVal gauss loc scale (r.stream (r.pos + i.val)), r.skip n)

/-- Line 17 of `Plots.py`: the per-row formula
`ObjectiveHealth = 0.48 * DIBEV_A + 0.61 * HYPEV_A + noise`. -/
def objectiveFormula (dibev hypev noise : ℚ) : ℚ :=
  0.48 * dibev + 0.61 * hypev + noise

/-- Lines 23–28 of `Plots.py`: the per-row formula
`PerceivedHealth = -0.48 * ObjectiveHealth - 0.28 * POVRATTC_A + 0.01 * EDUCP_A + noise`. -/
def perceivedFormula (obj pov educ noise : ℚ) : ℚ :=
  -0.48 * obj + -0.28 * pov + 0.01 * educ + noise

/-- The nine simulated arrays of `Plots.py`, each of length `n`
(an array is a function on row indices). -/
structure SimResult (n : Nat) where
  EDUCP_A : Fin n → ℤ
  POVRATTC_A : Fin n → ℚ
  DIBEV_A : Fin n → ℤ
  HYPEV_A : Fin n → ℤ
  ObjectiveHealth : Fin n → ℚ
  PHSTAT_A : Fin n → ℤ
  PHQCAT_A : Fin n → ℤ
  LSATIS4_A : Fin n → ℤ
  PerceivedHealth : Fin n → ℚ

/-- Lines 11–28 of `Plots.py`: the data-simulation stage, threading the
seeded generator through the draws in source order: `EDUCP_A`,
`POVRATTC_A`, `DIBEV_A`, `HYPEV_A`, the `ObjectiveHealth` noise,
`PHSTAT_A`, `PHQCAT_A`, `LSATIS4_A`, the `PerceivedHealth` noise. -/
def simulate (gauss : ℚ → ℚ) (n : Nat) (r0 : RNG) : SimResult n × RNG :=
  let d1 := randint 1 5 n r0
  let d2 := normal gauss 2 0.5 n d1.2
  let d3 := binomial 0.1 n d2.2
  let d4 := binomial 0.2 n d3.2
  let d5 := normal gauss 0 0.5 n d4.2
  let objective : Fin n → ℚ := fun i =>
    objectiveFormula ((d3.1 i : ℚ)) ((d4.1 i : ℚ)) (d5.1 i)
  let d6 := randint 1 6 n d5.2
  let d7 := randint 0 4 n d6.2
  let d8 := randint 1 5 n d7.2
  let d9 := normal gauss 0 0.5 n d8.2
  let perceived : Fin n → ℚ := fun i =>
    perceivedFormula (objective i) (d2.1 i) ((d1.1 i : ℚ)) (d9.1 i)
  (⟨d1.1, d2.1, d3.1, d4.1, objective, d6.1, d7.1, d8.1, perceived⟩, d9.2)

/-- A pandas `DataFrame` built from a dict: an ordered association list of
named columns. -/
abbrev Table := List (String × List ℚ)

/-- Lines 31–39 of `Plots.py`: the `DataFrame` `df`, holding exactly the
seven columns listed there in insertion order (integer columns are stored
as their numeric values). -/
def makeDF {n : Nat} (s : SimResult n) : Table :=
  [("EDUCP_A", List.ofFn (fun i => ((s.EDUCP_A i : ℚ)))),
   ("POVRATTC_A", List.ofFn s.POVRATTC_A),
   ("ObjectiveHealth", List.ofFn s.ObjectiveHealth),
   ("PerceivedHealth", List.ofFn s.PerceivedHealth),
   ("PHSTAT_A", List.ofFn (fun i => ((s.PHSTAT_A i : ℚ)))),
   ("PHQCAT_A", List.ofFn (fun i => ((s.PHQCAT_A i : ℚ)))),
   ("LSATIS4_A", List.ofFn (fun i => ((s.LSATIS4_A i : ℚ))))]

/-- Column lookup by name in a `DataFrame`; `none` when the column is
absent (pandas would raise a `KeyError`). -/
def getCol (t : Table) (name : String) : Option (List ℚ) :=
  (t.find? (fun c => c.1 == name)).map Prod.snd

/-- The data a seaborn plot call reads from the table: the `x` series, the
`y` series, and optionally the `hue` series. -/
structure Plot where
  xs : List ℚ
  ys : List ℚ
  hues : Option (List ℚ)

/-- `sns.lmplot(data=.., x=.., y=.., hue=..)`: reads the three named
columns; fails (raises) iff one of them is absent. -/
def lmplot (data : Table) (x y hue : String) : Option Plot :=
  match getCol data x, getCol data y, getCol data hue with
  | some xs, some ys, some hs => some ⟨xs, ys, some hs⟩
  | _, _, _ => none

/-- `sns.regplot(data=.., x=.., y=..)`: reads the two named columns;
fails (raises) iff one of them is absent. -/
def regplot (data : Table) (x y : String) : Option Plot :=
  match getCol data x, getCol data y with
  | some xs, some ys => some ⟨xs, ys, none⟩
  | _, _ => none

/-- Lines 42–50: Plot 1, `ObjectiveHealth` against `POVRATTC_A` grouped by
`EDUCP_A`. -/
def plot1 (df : Table) : Option Plot :=
  lmplot df ("POVRATTC_A") ("ObjectiveHealth") ("EDUCP_A")

/-- Lines 59–64: Plot 2, `PerceivedHealth` against `ObjectiveHealth`. -/
def plot2 (df : Table) : Option Plot :=
  regplot df ("ObjectiveHealth") ("PerceivedHealth")

/-- Lines 72–80: Plot 3, `PerceivedHealth` against `POVRATTC_A` grouped by
`EDUCP_A`. -/
def plot3 (df : Table) : Option Plot :=
  lmplot df ("POVRATTC_A") ("PerceivedHealth") ("EDUCP_A")

/-- Lines 42–85: the whole visualizer stage, producing the three plots in
source order; the table is threaded through so that its state after the
stage is explicit. -/
def runPlots (df : Table) : (Option Plot × Option Plot × Option Plot) × Table :=
  ((plot1 df, plot2 df, plot3 df), df)

/-! Helper lemmas: closed forms for each simulated array, with the stream
positions each draw consumes, counted from the cursor at the start of the
simulation. -/

theorem simulate_EDUCP (gauss : ℚ → ℚ) (s : Nat → ℚ) (p : Nat) (i : Fin 1000) :
    ((simulate gauss 1000 ⟨s, p⟩).1).EDUCP_A i = randintVal 1 5 (s (p + i.val)) := rfl

theorem simulate_POVRATTC (gauss : ℚ → ℚ) (s : Nat → ℚ) (p : Nat) (i : Fin 1000) :
    ((simulate gauss 1000 ⟨s, p⟩).1).POVRATTC_A i =
      normalVal gauss 2 0.5 (s (p + 1 * 1000 + i.val)) := by
  have h : p + 1000 + i.val = p + 1 * 1000 + i.val := by omega
  show normalVal gauss 2 0.5 (s (p + 1000 + i.val)) = _
  rw [h]

theorem simulate_DIBEV (gauss : ℚ → ℚ) (s : Nat → ℚ) (p : Nat) (i : Fin 1000) :
    ((simulate gauss 1000 ⟨s, p⟩).1).DIBEV_A i =
      bernoulliVal 0.1 (s (p + 2 * 1000 + i.val)) := by
  have h : p + 1000 + 1000 + i.val = p + 2 * 1000 + i.val := by omega
  show bernoulliVal 0.1 (s (p + 1000 + 1000 + i.val)) = _
  rw [h]

theorem simulate_HYPEV (gauss : ℚ → ℚ) (s : Nat → ℚ) (p : Nat) (i : Fin 1000) :
    ((simulate gauss 1000 ⟨s, p⟩).1).HYPEV_A i =
      bernoulliVal 0.2 (s (p + 3 * 1000 + i.val)) := by
  have h : p + 1000 + 1000 + 1000 + i.val = p + 3 * 1000 + i.val := by omega
  show bernoulliVal 0.2 (s (p + 1000 + 1000 + 1000 + i.val)) = _
  rw [h]

theorem simulate_ObjectiveHealth (gauss : ℚ → ℚ) (s : Nat → ℚ) (p : Nat) (i : Fin 1000) :
    ((simulate gauss 1000 ⟨s, p⟩).1).ObjectiveHealth i =
      objectiveFormula (((simulate gauss 1000 ⟨s, p⟩).1).DIBEV_A i : ℚ)
        (((simulate gauss 1000 ⟨s, p⟩).1).HYPEV_A i : ℚ)
        (normalVal gauss 0 0.5 (s (p + 4 * 1000 + i.val))) := by
  have h : p + 1000 + 1000 + 1000 + 1000 + i.val = p + 4 * 1000 + i.val := by omega
  show objectiveFormula (((simulate gauss 1000 ⟨s, p⟩).1).DIBEV_A i : ℚ)
      (((simulate gauss 1000 ⟨s, p⟩).1).HYPEV_A i : ℚ)
      (normalVal gauss 0 0.5 (s (p + 1000 + 1000 + 1000 + 1000 + i.val))) = _
  rw [h]

theorem simulate_PHSTAT (gauss : ℚ → ℚ) (s : Nat → ℚ) (p : Nat) (i : Fin 1000) :
    ((simulate gauss 1000 ⟨s, p⟩).1).PHSTAT_A i =
      randintVal 1 6 (s (p + 5 * 1000 + i.val)) := by
  have h : p + 1000 + 1000 + 1000 + 1000 + 1000 + i.val = p + 5 * 1000 + i.val := by omega
  show randintVal 1 6 (s (p + 1000 + 1000 + 1000 + 1000 + 1000 + i.val)) = _
  rw [h]

theorem simulate_PHQCAT (gauss : ℚ → ℚ) (s : Nat → ℚ) (p : Nat) (i : Fin 1000) :
    ((simulate gauss 1000 ⟨s, p⟩).1).PHQCAT_A i =
      randintVal 0 4 (s (p + 6 * 1000 + i.val)) := by
  have h : p + 1000 + 1000 + 1000 + 1000 + 1000 + 1000 + i.val = p + 6 * 1000 + i.val := by
    omega
  show randintVal 0 4 (s (p + 1000 + 1000 + 1000 + 1000 + 1000 + 1000 + i.val)) = _
  rw [h]

theorem simulate_LSATIS (gauss : ℚ → ℚ) (s : Nat → ℚ) (p : Nat) (i : Fin 1000) :
    ((simulate gauss 1000 ⟨s, p⟩).1).LSATIS4_A i =
      randintVal 1 5 (s (p + 7 * 1000 + i.val)) := by
  have h : p + 1000 + 1000 + 1000 + 1000 + 1000 + 1000 + 1000 + i.val =
      p + 7 * 1000 + i.val := by omega
  show randintVal 1 5 (s (p + 1000 + 1000 + 1000 + 1000 + 1000 + 1000 + 1000 + i.val)) = _
  rw [h]

theorem simulate_PerceivedHealth (gauss : ℚ → ℚ) (s : Nat → ℚ) (p : Nat) (i : Fin 1000) :
    ((simulate gauss 1000 ⟨s, p⟩).1).PerceivedHealth i =
      perceivedFormula (((simulate gauss 1000 ⟨s, p⟩).1).ObjectiveHealth i)
        (((simulate gauss 1000 ⟨s, p⟩).1).POVRATTC_A i)
        (((simulate gauss 1000 ⟨s, p⟩).1).EDUCP_A i : ℚ)
        (normalVal gauss 0 0.5 (s (p + 8 * 1000 + i.val))) := by
  have h : p + 1000 + 1000 + 1000 + 1000 + 1000 + 1000 + 1000 + 1000 + i.val =
      p + 8 * 1000 + i.val := by omega
  show perceivedFormula (((simulate gauss 1000 ⟨s, p⟩).1).ObjectiveHealth i)
      (((simulate gauss 1000 ⟨s, p⟩).1).POVRATTC_A i)
      (((simulate gauss 1000 ⟨s, p⟩).1).EDUCP_A i : ℚ)
      (normalVal gauss 0 0.5
        (s (p + 1000 + 1000 + 1000 + 1000 + 1000 + 1000 + 1000 + 1000 + i.val))) = _
  rw [h]

theorem simulate_finalPos (gauss : ℚ → ℚ) (s : Nat → ℚ) (p : Nat) :
    ((simulate gauss 1000 ⟨s, p⟩).2).pos = p + 9 * 1000 := by
  show p + 1000 + 1000 + 1000 + 1000 + 1000 + 1000 + 1000 + 1000 + 1000 = p + 9 * 1000
  omega

/-- Bounds for a single uniform-int draw: with a uniform input in `[0,1)`
the value lies in `[lo, hi - 1]`. -/
theorem randintVal_bounds (lo hi : ℤ) (hlt : lo < hi) (u : ℚ)
    (h0 : 0 ≤ u) (h1 : u < 1) :
    lo ≤ randintVal lo hi u ∧ randintVal lo hi u ≤ hi - 1 := by
  unfold randintVal
  have hpos : (0 : ℚ) < (hi : ℚ) - (lo : ℚ) := by
    have : (lo : ℚ) < (hi : ℚ) := by exact_mod_cast hlt
    linarith
  have hfl : (0 : ℤ) ≤ ⌊u * ((hi : ℚ) - (lo : ℚ))⌋ := by
    apply Int.le_floor.mpr
    push_cast
    exact mul_nonneg h0 (le_of_lt hpos)
  have hfu : ⌊u * ((hi : ℚ) - (lo : ℚ))⌋ < hi - lo := by
    apply Int.floor_lt.mpr
    push_cast
    nlinarith
  omega

/-- A Bernoulli draw is zero or one. -/
theorem bernoulliVal_eq_zero_or_one (p u : ℚ) :
    bernoulliVal p u = 0 ∨ bernoulliVal p u = 1 := by
  unfold bernoulliVal
  split
  · exact Or.inr rfl
  · exact Or.inl rfl

/-- C1 (counterexample): the generated `df` does not have the nine column
names the spec lists — `DIBEV_A` and `HYPEV_A` are computed but never put
into the DataFrame, so the column-name list of the table produced at a
concrete seed stream differs from the spec's nine-name list. -/
theorem C1_nine_columns_false :
    ¬ ((makeDF ((simulate id 1000 ⟨fun _ => 0, 0⟩).1)).map Prod.fst =
      ["EDUCP_A", "POVRATTC_A", "DIBEV_A", "HYPEV_A", "ObjectiveHealth",
       "PHSTAT_A", "PHQCAT_A", "LSATIS4_A", "PerceivedHealth"]) := by
  intro h
  have hn : (makeDF ((simulate id 1000 ⟨fun _ => 0, 0⟩).1)).map Prod.fst =
      ["EDUCP_A", "POVRATTC_A", "ObjectiveHealth", "PerceivedHealth",
       "PHSTAT_A", "PHQCAT_A", "LSATIS4_A"] := rfl
  rw [hn] at h
  exact absurd h (by decide)

/-- C1 (amended): for the fixed seed and n = 1000, the generated table has
exactly 1000 rows in every column and exactly seven columns, named
`EDUCP_A`, `POVRATTC_A`, `ObjectiveHealth`, `PerceivedHealth`, `PHSTAT_A`,
`PHQCAT_A`, `LSATIS4_A` in that order; `DIBEV_A` and `HYPEV_A` are
generated but not stored in the table. -/
theorem C1_table_shape (gauss : ℚ → ℚ) (s : Nat → ℚ) (p : Nat) :
    (makeDF ((simulate gauss 1000 ⟨s, p⟩).1)).map Prod.fst =
      ["EDUCP_A", "POVRATTC_A", "ObjectiveHealth", "PerceivedHealth",
       "PHSTAT_A", "PHQCAT_A", "LSATIS4_A"] ∧
    (makeDF ((simulate gauss 1000 ⟨s, p⟩).1)).map (fun c => c.2.length) =
      [1000, 1000, 1000, 1000, 1000, 1000, 1000] := by
  refine ⟨rfl, ?_⟩
  simp only [makeDF, List.map_cons, List.map_nil, List.length_ofFn]

/-- C2: the data-generation stage is deterministic — two runs whose seeded
uniform streams agree pointwise (same seed) produce identical results,
every column included. -/
theorem C2_generation_deterministic (gauss : ℚ → ℚ) (s1 s2 : Nat → ℚ) (p : Nat)
    (h : ∀ j, s1 j = s2 j) :
    simulate gauss 1000 ⟨s1, p⟩ = simulate gauss 1000 ⟨s2, p⟩ := by
  have hs : s1 = s2 := funext h
  rw [hs]

/-- Witness for C2 at two syntactically different but pointwise equal
streams. -/
theorem C2_generation_deterministic_witness :
    simulate id 1000 ⟨fun _ => 0, 0⟩ = simulate id 1000 ⟨fun _ => 1 - 1, 0⟩ :=
  C2_generation_deterministic id (fun _ => 0) (fun _ => 1 - 1) 0 (fun _ => by norm_num)

/-- C3: for every row, `ObjectiveHealth` equals
`0.48 * DIBEV_A + 0.61 * HYPEV_A` plus the noise draw
`normal(0, 0.5)` taken for that row from its own fresh stream position
(the `4·n + i`-th draw, distinct for every row). -/
theorem C3_objective_linear_combination (gauss : ℚ → ℚ) (s : Nat → ℚ) (p : Nat)
    (i : Fin 1000) :
    ((simulate gauss 1000 ⟨s, p⟩).1).ObjectiveHealth i =
      0.48 * (((simulate gauss 1000 ⟨s, p⟩).1).DIBEV_A i : ℚ) +
      0.61 * (((simulate gauss 1000 ⟨s, p⟩).1).HYPEV_A i : ℚ) +
      normalVal gauss 0 0.5 (s (p + 4 * 1000 + i.val)) := by
  rw [simulate_ObjectiveHealth]
  rfl

/-- C4: for every row, `PerceivedHealth` equals
`-0.48 * ObjectiveHealth - 0.28 * POVRATTC_A + 0.01 * EDUCP_A` plus the
noise draw `normal(0, 0.5)` taken for that row from its own fresh stream
position (the `8·n + i`-th draw, distinct for every row). -/
theorem C4_perceived_linear_combination (gauss : ℚ → ℚ) (s : Nat → ℚ) (p : Nat)
    (i : Fin 1000) :
    ((simulate gauss 1000 ⟨s, p⟩).1).PerceivedHealth i =
      -0.48 * ((simulate gauss 1000 ⟨s, p⟩).1).ObjectiveHealth i +
      -0.28 * ((simulate gauss 1000 ⟨s, p⟩).1).POVRATTC_A i +
      0.01 * (((simulate gauss 1000 ⟨s, p⟩).1).EDUCP_A i : ℚ) +
      normalVal gauss 0 0.5 (s (p + 8 * 1000 + i.val)) := by
  rw [simulate_PerceivedHealth]
  rfl

/-- C5: with a valid uniform stream, every generated value respects its
range — `EDUCP_A ∈ [1,4]`, `PHSTAT_A ∈ [1,5]`, `PHQCAT_A ∈ [0,3]`,
`LSATIS4_A ∈ [1,4]`, and `DIBEV_A`, `HYPEV_A ∈ {0,1}` — at every row. -/
theorem C5_value_ranges (gauss : ℚ → ℚ) (s : Nat → ℚ) (p : Nat)
    (hs : validStream s) (i : Fin 1000) :
    (1 ≤ ((simulate gauss 1000 ⟨s, p⟩).1).EDUCP_A i ∧
      ((simulate gauss 1000 ⟨s, p⟩).1).EDUCP_A i ≤ 4) ∧
    (1 ≤ ((simulate gauss 1000 ⟨s, p⟩).1).PHSTAT_A i ∧
      ((simulate gauss 1000 ⟨s, p⟩).1).PHSTAT_A i ≤ 5) ∧
    (0 ≤ ((simulate gauss 1000 ⟨s, p⟩).1).PHQCAT_A i ∧
      ((simulate gauss 1000 ⟨s, p⟩).1).PHQCAT_A i ≤ 3) ∧
    (1 ≤ ((simulate gauss 1000 ⟨s, p⟩).1).LSATIS4_A i ∧
      ((simulate gauss 1000 ⟨s, p⟩).1).LSATIS4_A i ≤ 4) ∧
    (((simulate gauss 1000 ⟨s, p⟩).1).DIBEV_A i = 0 ∨
      ((simulate gauss 1000 ⟨s, p⟩).1).DIBEV_A i = 1) ∧
    (((simulate gauss 1000 ⟨s, p⟩).1).HYPEV_A i = 0 ∨
      ((simulate gauss 1000 ⟨s, p⟩).1).HYPEV_A i = 1) := by
  refine ⟨?_, ?_, ?_, ?_, ?_, ?_⟩
  · rw [simulate_EDUCP]
    have hb := randintVal_bounds 1 5 (by norm_num) (s (p + i.val))
      (hs (p + i.val)).1 (hs (p + i.val)).2
    omega
  · rw [simulate_PHSTAT]
    have hb := randintVal_bounds 1 6 (by norm_num) (s (p + 5 * 1000 + i.val))
      (hs (p + 5 * 1000 + i.val)).1 (hs (p + 5 * 1000 + i.val)).2
    omega
  · rw [simulate_PHQCAT]
    have hb := randintVal_bounds 0 4 (by norm_num) (s (p + 6 * 1000 + i.val))
      (hs (p + 6 * 1000 + i.val)).1 (hs (p + 6 * 1000 + i.val)).2
    omega
  · rw [simulate_LSATIS]
    have hb := randintVal_bounds 1 5 (by norm_num) (s (p + 7 * 1000 + i.val))
      (hs (p + 7 * 1000 + i.val)).1 (hs (p + 7 * 1000 + i.val)).2
    omega
  · rw [simulate_DIBEV]
    exact bernoulliVal_eq_zero_or_one _ _
  · rw [simulate_HYPEV]
    exact bernoulliVal_eq_zero_or_one _ _

/-- Witness for C5 at the constant stream `1/2` and row 0. -/
theorem C5_value_ranges_witness :
    (1 ≤ ((simulate id 1000 ⟨fun _ => 1 / 2, 0⟩).1).EDUCP_A ⟨0, by norm_num⟩ ∧
      ((simulate id 1000 ⟨fun _ => 1 / 2, 0⟩).1).EDUCP_A ⟨0, by norm_num⟩ ≤ 4) ∧
    (1 ≤ ((simulate id 1000 ⟨fun _ => 1 / 2, 0⟩).1).PHSTAT_A ⟨0, by norm_num⟩ ∧
      ((simulate id 1000 ⟨fun _ => 1 / 2, 0⟩).1).PHSTAT_A ⟨0, by norm_num⟩ ≤ 5) ∧
    (0 ≤ ((simulate id 1000 ⟨fun _ => 1 / 2, 0⟩).1).PHQCAT_A ⟨0, by norm_num⟩ ∧
      ((simulate id 1000 ⟨fun _ => 1 / 2, 0⟩).1).PHQCAT_A ⟨0, by norm_num⟩ ≤ 3) ∧
    (1 ≤ ((simulate id 1000 ⟨fun _ => 1 / 2, 0⟩).1).LSATIS4_A ⟨0, by norm_num⟩ ∧
      ((simulate id 1000 ⟨fun _ => 1 / 2, 0⟩).1).LSATIS4_A ⟨0, by norm_num⟩ ≤ 4) ∧
    (((simulate id 1000 ⟨fun _ => 1 / 2, 0⟩).1).DIBEV_A ⟨0, by norm_num⟩ = 0 ∨
      ((simulate id 1000 ⟨fun _ => 1 / 2, 0⟩).1).DIBEV_A ⟨0, by norm_num⟩ = 1) ∧
    (((simulate id 1000 ⟨fun _ => 1 / 2, 0⟩).1).HYPEV_A ⟨0, by norm_num⟩ = 0 ∨
      ((simulate id 1000 ⟨fun _ => 1 / 2, 0⟩).1).HYPEV_A ⟨0, by norm_num⟩ = 1) :=
  C5_value_ranges id (fun _ => 1 / 2) 0 (by intro j; norm_num [validStream]) ⟨0, by norm_num⟩

/-- C6: the draws consume the seeded stream in source order — `EDUCP_A`
uses positions `p+i`, `POVRATTC_A` positions `p+1000+i`, `DIBEV_A`
positions `p+2000+i`, `HYPEV_A` positions `p+3000+i`, the
`ObjectiveHealth` noise positions `p+4000+i`, `PHSTAT_A` positions
`p+5000+i`, `PHQCAT_A` positions `p+6000+i`, `LSATIS4_A` positions
`p+7000+i`, the `PerceivedHealth` noise positions `p+8000+i` — and the
whole stage consumes exactly `9·1000` draws. -/
theorem C6_draw_order (gauss : ℚ → ℚ) (s : Nat → ℚ) (p : Nat) (i : Fin 1000) :
    ((simulate gauss 1000 ⟨s, p⟩).1).EDUCP_A i = randintVal 1 5 (s (p + i.val)) ∧
    ((simulate gauss 1000 ⟨s, p⟩).1).POVRATTC_A i =
      normalVal gauss 2 0.5 (s (p + 1 * 1000 + i.val)) ∧
    ((simulate gauss 1000 ⟨s, p⟩).1).DIBEV_A i =
      bernoulliVal 0.1 (s (p + 2 * 1000 + i.val)) ∧
    ((simulate gauss 1000 ⟨s, p⟩).1).HYPEV_A i =
      bernoulliVal 0.2 (s (p + 3 * 1000 + i.val)) ∧
    ((simulate gauss 1000 ⟨s, p⟩).1).ObjectiveHealth i =
      objectiveFormula (((simulate gauss 1000 ⟨s, p⟩).1).DIBEV_A i : ℚ)
        (((simulate gauss 1000 ⟨s, p⟩).1).HYPEV_A i : ℚ)
        (normalVal gauss 0 0.5 (s (p + 4 * 1000 + i.val))) ∧
    ((simulate gauss 1000 ⟨s, p⟩).1).PHSTAT_A i =
      randintVal 1 6 (s (p + 5 * 1000 + i.val)) ∧
    ((simulate gauss 1000 ⟨s, p⟩).1).PHQCAT_A i =
      randintVal 0 4 (s (p + 6 * 1000 + i.val)) ∧
    ((simulate gauss 1000 ⟨s, p⟩).1).LSATIS4_A i =
      randintVal 1 5 (s (p + 7 * 1000 + i.val)) ∧
    ((simulate gauss 1000 ⟨s, p⟩).1).PerceivedHealth i =
      perceivedFormula (((simulate gauss 1000 ⟨s, p⟩).1).ObjectiveHealth i)
        (((simulate gauss 1000 ⟨s, p⟩).1).POVRATTC_A i)
        (((simulate gauss 1000 ⟨s, p⟩).1).EDUCP_A i : ℚ)
        (normalVal gauss 0 0.5 (s (p + 8 * 1000 + i.val))) ∧
    ((simulate gauss 1000 ⟨s, p⟩).2).pos = p + 9 * 1000 :=
  ⟨simulate_EDUCP gauss s p i, simulate_POVRATTC gauss s p i,
   simulate_DIBEV gauss s p i, simulate_HYPEV gauss s p i,
   simulate_ObjectiveHealth gauss s p i, simulate_PHSTAT gauss s p i,
   simulate_PHQCAT gauss s p i, simulate_LSATIS gauss s p i,
   simulate_PerceivedHealth gauss s p i, simulate_finalPos gauss s p⟩

/-- C7: the visualizer never mutates the table — after the three plot
operations run, the table is the very table that was created, and every
column lookup gives the same answer as before. -/
theorem C7_visualizer_preserves_table (df : Table) :
    (runPlots df).2 = df ∧
    ∀ name, getCol ((runPlots df).2) name = getCol df name :=
  ⟨rfl, fun _ => rfl⟩

/-- C8: when the four columns the plots use are present in the table, all
three plot calls succeed (return a plot rather than failing on a missing
column). -/
theorem C8_plots_complete (df : Table)
    (h1 : (getCol df ("POVRATTC_A")).isSome = true)
    (h2 : (getCol df ("ObjectiveHealth")).isSome = true)
    (h3 : (getCol df ("PerceivedHealth")).isSome = true)
    (h4 : (getCol df ("EDUCP_A")).isSome = true) :
    (plot1 df).isSome = true ∧ (plot2 df).isSome = true ∧
    (plot3 df).isSome = true := by
  obtain ⟨c1, e1⟩ := Option.isSome_iff_exists.mp h1
  obtain ⟨c2, e2⟩ := Option.isSome_iff_exists.mp h2
  obtain ⟨c3, e3⟩ := Option.isSome_iff_exists.mp h3
  obtain ⟨c4, e4⟩ := Option.isSome_iff_exists.mp h4
  unfold plot1 plot2 plot3 lmplot regplot
  rw [e1, e2, e3, e4]
  simp

/-- Witness for C8 on a concrete four-column table. -/
theorem C8_plots_complete_witness :
    (plot1 ([("EDUCP_A", [1]), ("POVRATTC_A", [2]),
      ("ObjectiveHealth", [0]), ("PerceivedHealth", [0])])).isSome = true ∧
    (plot2 ([("EDUCP_A", [1]), ("POVRATTC_A", [2]),
      ("ObjectiveHealth", [0]), ("PerceivedHealth", [0])])).isSome = true ∧
    (plot3 ([("EDUCP_A", [1]), ("POVRATTC_A", [2]),
      ("ObjectiveHealth", [0]), ("PerceivedHealth", [0])])).isSome = true :=
  C8_plots_complete _ rfl rfl rfl rfl

/-- C9: holding the noise draw and the `POVRATTC_A` and `EDUCP_A` values
fixed, the `PerceivedHealth` formula of lines 23–28 is strictly decreasing
in `ObjectiveHealth` (coefficient `-0.48`). -/
theorem C9_perceived_strictly_decreasing (pov educ noise o1 o2 : ℚ) (h : o1 < o2) :
    perceivedFormula o2 pov educ noise < perceivedFormula o1 pov educ noise := by
  unfold perceivedFormula
  nlinarith

/-- Witness for C9 at `o1 = 0 < o2 = 1`. -/
theorem C9_perceived_strictly_decreasing_witness :
    perceivedFormula 1 0 0 0 < perceivedFormula 0 0 0 0 :=
  C9_perceived_strictly_decreasing 0 0 0 0 1 (by norm_num)

/-- C10: the plots never read `PHSTAT_A`, `PHQCAT_A` or `LSATIS4_A` — any
two tables that agree on the four columns the plots use (and may differ
arbitrarily elsewhere, in particular in those three columns) give every
plot exactly the same x, y, and hue data. -/
theorem C10_plots_ignore_unused_columns (t1 t2 : Table)
    (hpov : getCol t1 ("POVRATTC_A") = getCol t2 ("POVRATTC_A"))
    (hobj : getCol t1 ("ObjectiveHealth") = getCol t2 ("ObjectiveHealth"))
    (hper : getCol t1 ("PerceivedHealth") = getCol t2 ("PerceivedHealth"))
    (hedu : getCol t1 ("EDUCP_A") = getCol t2 ("EDUCP_A")) :
    plot1 t1 = plot1 t2 ∧ plot2 t1 = plot2 t2 ∧ plot3 t1 = plot3 t2 := by
  unfold plot1 plot2 plot3 lmplot regplot
  rw [hpov, hobj, hper, hedu]
  exact ⟨rfl, rfl, rfl⟩

/-- Witness for C10 on two concrete tables that differ exactly in
`PHSTAT_A`, `PHQCAT_A` and `LSATIS4_A`. -/
theorem C10_plots_ignore_unused_columns_witness :
    plot1 ([("EDUCP_A", [1]), ("POVRATTC_A", [2]), ("ObjectiveHealth", [0]),
        ("PerceivedHealth", [0]), ("PHSTAT_A", [1]), ("PHQCAT_A", [0]),
        ("LSATIS4_A", [1])]) =
      plot1 ([("EDUCP_A", [1]), ("POVRATTC_A", [2]), ("ObjectiveHealth", [0]),
        ("PerceivedHealth", [0]), ("PHSTAT_A", [5]), ("PHQCAT_A", [3]),
        ("LSATIS4_A", [4])]) ∧
    plot2 ([("EDUCP_A", [1]), ("POVRATTC_A", [2]), ("ObjectiveHealth", [0]),
        ("PerceivedHealth", [0]), ("PHSTAT_A", [1]), ("PHQCAT_A", [0]),
        ("LSATIS4_A", [1])]) =
      plot2 ([("EDUCP_A", [1]), ("POVRATTC_A", [2]), ("ObjectiveHealth", [0]),
        ("PerceivedHealth", [0]), ("PHSTAT_A", [5]), ("PHQCAT_A", [3]),
        ("LSATIS4_A", [4])]) ∧
    plot3 ([("EDUCP_A", [1]), ("POVRATTC_A", [2]), ("ObjectiveHealth", [0]),
        ("PerceivedHealth", [0]), ("PHSTAT_A", [1]), ("PHQCAT_A", [0]),
        ("LSATIS4_A", [1])]) =
      plot3 ([("EDUCP_A", [1]), ("POVRATTC_A", [2]), ("ObjectiveHealth", [0]),
        ("PerceivedHealth", [0]), ("PHSTAT_A", [5]), ("PHQCAT_A", [3]),
        ("LSATIS4_A", [4])]) :=
  C10_plots_ignore_unused_columns _ _ rfl rfl rfl rfl

end Plots
